import Mathlib

/-!
Shallow embedding of the Match lifecycle and result-resolution engine of the
Esport repository (mongoose model `Match` in the backend models, and
`MatchController` in the backend controllers/routes).

Dates are modelled as integers (millisecond epoch values); `new Date()` calls
become an explicit `now : Int` parameter.  Document ids (`ObjectId`) are
modelled as `Nat`.  A mongoose `save()` is modelled as a pure function that
first runs the schema validators (mongoose runs validation before user
`pre('save')` hooks) and then the custom `pre('save')` hook of the match
schema; on success the in-memory document becomes the persisted document.
-/

namespace Esport

/-- The `status` enum of the match schema. -/
inductive MatchStatus
  | scheduled
  | ongoing
  | completed
  | cancelled
  | postponed
  deriving DecidableEq, Repr

/-- The `bracket` enum of the match schema. -/
inductive Bracket
  | winners
  | losers
  | finals
  | group
  deriving DecidableEq, Repr

/-- One entry of the `games` array of the match schema. -/
structure Game where
  gameNumber : Int
  teamAScore : Int
  teamBScore : Int
  winner : Option Nat
  duration : Int
  notes : String
  deriving DecidableEq, Repr

/-- The `Match` document of the match schema. -/
structure Match where
  tournamentId : Nat
  teamAId : Nat
  teamBId : Nat
  scheduleAt : Int
  result : String
  scoreTeamA : Int
  scoreTeamB : Int
  status : MatchStatus
  round : Int
  bracket : Bracket
  duration : Int
  startTime : Option Int
  endTime : Option Int
  winnerId : Option Nat
  bestOf : Nat
  games : List Game
  streamUrl : String
  notes : String
  refereeId : Option Nat
  deriving DecidableEq, Repr

/-- Outcome of a failed `save()`: either a mongoose schema `ValidationError`
(`error.name === 'ValidationError'`) or a plain `Error` passed to `next` by the
custom `pre('save')` hook. -/
inductive SaveError
  | validationFailed
  | hookError (msg : String)
  deriving DecidableEq, Repr

/-- The schema validators that constrain fields touched by the modelled
operations: `result` maxlength 200, scores min 0, `round` min 1, `bestOf`
min 1, `notes` maxlength 1000. -/
def schemaValid (m : Match) : Bool :=
  decide (m.result.length ≤ 200) &&
  decide (0 ≤ m.scoreTeamA) &&
  decide (0 ≤ m.scoreTeamB) &&
  decide (1 ≤ m.round) &&
  decide (1 ≤ m.bestOf) &&
  decide (m.notes.length ≤ 1000)

/-- The custom `matchSchema.pre('save')` hook: rejects equal team ids, and
rejects `endTime <= startTime` when both timestamps are present. -/
def preSaveError (m : Match) : Option String :=
  if m.teamAId = m.teamBId then
    some "Team A and Team B cannot be the same"
  else
    match m.endTime, m.startTime with
    | some e, some s =>
        if e ≤ s then some "End time must be after start time" else none
    | _, _ => none

/-- `save()`: schema validation, then the `pre('save')` hook, then persist. -/
def save (m : Match) : Except SaveError Match :=
  if schemaValid m then
    match preSaveError m with
    | some msg => .error (.hookError msg)
    | none => .ok m
  else
    .error .validationFailed

/-- `matchSchema.methods.setResult(result, scoreA, scoreB)`. -/
def Match.setResult (m : Match) (result : String) (scoreA scoreB : Int)
    (now : Int) : Except SaveError Match :=
  let m1 := { m with result := result, scoreTeamA := scoreA, scoreTeamB := scoreB }
  let m2 :=
    if scoreA > scoreB then { m1 with winnerId := some m1.teamAId }
    else if scoreB > scoreA then { m1 with winnerId := some m1.teamBId }
    else m1
  save { m2 with status := .completed, endTime := some now }

/-- `matchSchema.methods.rescheduleNewDate(newDate)`. -/
def Match.rescheduleNewDate (m : Match) (newDate : Int) : Except SaveError Match :=
  save { m with scheduleAt := newDate, status := .scheduled }

/-- `matchSchema.methods.start()`. -/
def Match.start (m : Match) (now : Int) : Except SaveError Match :=
  save { m with status := .ongoing, startTime := some now }

/-- `matchSchema.methods.cancel(reason = '')`; the omitted-argument call is
`m.cancel ""`. -/
def Match.cancel (m : Match) (reason : String) : Except SaveError Match :=
  save { m with status := .cancelled, notes := reason }

/-- `matchSchema.methods.postpone(reason = '')`; the omitted-argument call is
`m.postpone ""`. -/
def Match.postpone (m : Match) (reason : String) : Except SaveError Match :=
  save { m with status := .postponed, notes := reason }

/-- `matchSchema.methods.addGame(gameData)`: push the game, recompute the
best-of resolution from the full game list, persist. -/
def Match.addGame (m : Match) (gameData : Game) (now : Int) : Except SaveError Match :=
  let m1 := { m with games := m.games ++ [gameData] }
  let requiredWins : Nat := (m1.bestOf + 1) / 2
  let teamAWins : Nat := (m1.games.filter (fun g => g.winner == some m1.teamAId)).length
  let teamBWins : Nat := (m1.games.filter (fun g => g.winner == some m1.teamBId)).length
  if teamAWins ≥ requiredWins then
    save { m1 with winnerId := some m1.teamAId, status := .completed, endTime := some now }
  else if teamBWins ≥ requiredWins then
    save { m1 with winnerId := some m1.teamBId, status := .completed, endTime := some now }
  else
    save m1

/-! ## Controller layer (`MatchController` in the backend routes/controllers)

Responses are modelled by their HTTP status code together with either the
persisted match (success) or the response `message` (failure).  The external
database of tournaments and competitor registrations consulted by
`createMatch` is modelled as explicit lists. -/

/-- An HTTP response of `MatchController`: success code with the resulting
match, or an error code with its message. -/
inductive HttpResp
  | ok (code : Nat) (m : Match)
  | err (code : Nat) (msg : String)
  deriving DecidableEq, Repr

/-- External state consulted by `createMatch`: the ids of existing
tournaments, and the (competitorId, tournamentId) registration pairs matched
by `Competitor.findOne({ _id, tournamentId })`. -/
structure Db where
  tournaments : List Nat
  registrations : List (Nat × Nat)
  deriving DecidableEq, Repr

/-- `Competitor.findOne({ _id: cid, tournamentId: tid })` finds something. -/
def Db.registered (db : Db) (cid tid : Nat) : Bool :=
  db.registrations.contains (cid, tid)

/-- JavaScript `x || d` for an optional string (`undefined` and `''` are
falsy). -/
def jsOrString (x : Option String) (d : String) : String :=
  match x with
  | none => d
  | some s => if s = "" then d else s

/-- JavaScript `x || d` for an optional number (`undefined` and `0` are
falsy). -/
def jsOrInt (x : Option Int) (d : Int) : Int :=
  match x with
  | none => d
  | some n => if n = 0 then d else n

/-- The new `Match({...})` document built by `MatchController.createMatch`:
every field not passed in the request takes its schema default. -/
def mkMatch (tournamentId teamAId teamBId : Nat) (scheduleAt : Int)
    (round : Int) (bracket : Bracket) (bestOf : Nat)
    (refereeId : Option Nat) : Match :=
  { tournamentId := tournamentId
    teamAId := teamAId
    teamBId := teamBId
    scheduleAt := scheduleAt
    result := ""
    scoreTeamA := 0
    scoreTeamB := 0
    status := .scheduled
    round := round
    bracket := bracket
    duration := 0
    startTime := none
    endTime := none
    winnerId := none
    bestOf := bestOf
    games := []
    streamUrl := ""
    notes := ""
    refereeId := refereeId }

namespace MatchController

/-- `MatchController.createMatch`: 404 when the tournament lookup returns
nothing, 400 when either competitor lookup returns nothing, then
`match.save()`; a mongoose `ValidationError` is answered with 400
"Validation failed", any other save error (in particular the plain `Error`
raised by the duplicate-team `pre('save')` hook) falls through to the 500
handler. -/
def createMatch (db : Db) (tournamentId teamAId teamBId : Nat)
    (scheduleAt : Int) (round : Int) (bracket : Bracket) (bestOf : Nat)
    (refereeId : Option Nat) : HttpResp :=
  if ¬ db.tournaments.contains tournamentId then
    .err 404 "Tournament not found"
  else if ¬ (db.registered teamAId tournamentId ∧ db.registered teamBId tournamentId) then
    .err 400 "One or both competitors not found in this tournament"
  else
    match save (mkMatch tournamentId teamAId teamBId scheduleAt round bracket bestOf refereeId) with
    | .ok m => .ok 201 m
    | .error .validationFailed => .err 400 "Validation failed"
    | .error (.hookError _) => .err 500 "Server error while creating match"

/-- `MatchController.startMatch` on an already-fetched match: rejects with
400 unless the status is `scheduled`, otherwise calls the `start()` method. -/
def startMatch (m : Match) (now : Int) : HttpResp :=
  if m.status ≠ .scheduled then
    .err 400 "Match cannot be started from current status"
  else
    match m.start now with
    | .ok m2 => .ok 200 m2
    | .error _ => .err 500 "Server error while starting match"

/-- `MatchController.cancelMatch` on an already-fetched match:
`match.cancel(reason || 'No reason provided')`. -/
def cancelMatch (m : Match) (reason : Option String) : HttpResp :=
  match m.cancel (jsOrString reason "No reason provided") with
  | .ok m2 => .ok 200 m2
  | .error _ => .err 500 "Server error while cancelling match"

/-- `MatchController.postponeMatch` on an already-fetched match:
`match.postpone(reason || 'No reason provided')`. -/
def postponeMatch (m : Match) (reason : Option String) : HttpResp :=
  match m.postpone (jsOrString reason "No reason provided") with
  | .ok m2 => .ok 200 m2
  | .error _ => .err 500 "Server error while postponing match"

/-- `MatchController.addGame` on an already-fetched match: builds the game
record with JavaScript `||` defaults and calls the `addGame` method; there is
no check of the match status anywhere on this path. -/
def addGameCtrl (m : Match) (gameNumber : Option Int)
    (teamAScore teamBScore : Int) (winnerId : Option Nat)
    (duration : Option Int) (notes : Option String) (now : Int) : HttpResp :=
  let g : Game :=
    { gameNumber := jsOrInt gameNumber (m.games.length + 1)
      teamAScore := teamAScore
      teamBScore := teamBScore
      winner := winnerId
      duration := jsOrInt duration 0
      notes := jsOrString notes "" }
  match m.addGame g now with
  | .ok m2 => .ok 200 m2
  | .error _ => .err 500 "Server error while adding game"

end MatchController

/-! ## Basic lemmas about `save` -/

/-- A successful `save` returns the document unchanged and certifies that the
schema validators and the `pre('save')` hook both passed. -/
theorem save_ok_inv {m m2 : Match} (h : save m = Except.ok m2) :
    m2 = m ∧ schemaValid m = true ∧ preSaveError m = none := by
  unfold save at h
  split at h
  · split at h
    · cases h
    · cases h
      refine ⟨rfl, by assumption, by assumption⟩
  · cases h

/-- `save` succeeds whenever the validators and the hook pass. -/
theorem save_ok_self {m : Match} (hv : schemaValid m = true)
    (hp : preSaveError m = none) : save m = Except.ok m := by
  unfold save
  simp [hv, hp]

/-- Characterisation of the `pre('save')` hook passing. -/
theorem preSaveError_none_iff (m : Match) :
    preSaveError m = none ↔
      m.teamAId ≠ m.teamBId ∧
        ∀ e s, m.endTime = some e → m.startTime = some s → s < e := by
  unfold preSaveError
  split_ifs with hab
  · simp [hab]
  · cases he : m.endTime with
    | none => simp [hab, he]
    | some e =>
      cases hs : m.startTime with
      | none => simp [hab, he, hs]
      | some s =>
        simp only [he, hs]
        split_ifs with hle
        · simp only [reduceCtorEq, false_iff, not_and, not_forall]
          intro _
          exact ⟨e, s, rfl, rfl, by omega⟩
        · simp only [true_iff]
          refine ⟨hab, ?_⟩
          rintro e' s' he' hs'
          cases he'
          cases hs'
          omega

/-! ## Concrete fixtures used by witnesses and counterexamples -/

/-- A concrete game record: ordinal `n`, optional winner `w`. -/
def gameW (n : Int) (w : Option Nat) : Game :=
  { gameNumber := n, teamAScore := 0, teamBScore := 0, winner := w,
    duration := 0, notes := "" }

/-- A concrete ongoing best-of-3 match between competitors 10 and 20, with
two recorded games won by 10 and by 20 respectively. -/
def mOngoing : Match :=
  { tournamentId := 1, teamAId := 10, teamBId := 20, scheduleAt := 0,
    result := "", scoreTeamA := 0, scoreTeamB := 0, status := .ongoing,
    round := 1, bracket := .winners, duration := 0, startTime := some 100,
    endTime := none, winnerId := none, bestOf := 3,
    games := [gameW 1 (some 10), gameW 2 (some 20)], streamUrl := "",
    notes := "", refereeId := none }

/-- The persisted result of adding a third game won by 10 to `mOngoing` at
time 500. -/
def mOngoingDone : Match :=
  { mOngoing with
    games := [gameW 1 (some 10), gameW 2 (some 20), gameW 3 (some 10)]
    winnerId := some 10
    status := .completed
    endTime := some 500 }

/-! ## Claim theorems -/

/-- Spec-side win count: the number of games of the sequence whose recorded
winner is the given competitor. -/
def winsFor (games : List Game) (tid : Nat) : Nat :=
  games.countP (fun g => g.winner == some tid)

/-- Spec-side required-wins threshold, `ceil(bestOf / 2)` on naturals. -/
def requiredWins (bestOf : Nat) : Nat :=
  (bestOf + 1) / 2

/-- `requiredWins` is exactly the ceiling of `bestOf / 2`: it is the least
natural `r` with `bestOf ≤ 2 * r`. -/
theorem requiredWins_is_ceil (b : Nat) :
    b ≤ 2 * requiredWins b ∧ 2 * requiredWins b ≤ b + 1 := by
  unfold requiredWins
  omega

/-- Claim C1: after `addGame` appends a game to a best-of-N match, the engine
recounts from the full game sequence the games won by teamA and by teamB; if
either count reaches `ceil(bestOf / 2)` the winner is set to that side, the
status becomes completed and the end timestamp is stamped, and otherwise the
status, winner and end timestamp are left unchanged. -/
theorem addGame_bestOf_resolution (m : Match) (g : Game) (now : Int)
    (m2 : Match) (h : m.addGame g now = Except.ok m2) :
    m2.games = m.games ++ [g] ∧
    (winsFor (m.games ++ [g]) m.teamAId ≥ requiredWins m.bestOf →
      m2.winnerId = some m.teamAId ∧ m2.status = .completed ∧
        m2.endTime = some now) ∧
    (winsFor (m.games ++ [g]) m.teamAId < requiredWins m.bestOf →
      winsFor (m.games ++ [g]) m.teamBId ≥ requiredWins m.bestOf →
      m2.winnerId = some m.teamBId ∧ m2.status = .completed ∧
        m2.endTime = some now) ∧
    (winsFor (m.games ++ [g]) m.teamAId < requiredWins m.bestOf →
      winsFor (m.games ++ [g]) m.teamBId < requiredWins m.bestOf →
      m2.status = m.status ∧ m2.winnerId = m.winnerId ∧
        m2.endTime = m.endTime) := by
  unfold Match.addGame at h
  simp only [] at h
  simp only [winsFor, requiredWins, List.countP_eq_length_filter]
  split at h
  · rename_i hA
    obtain ⟨rfl, -, -⟩ := save_ok_inv h
    exact ⟨rfl, fun _ => ⟨rfl, rfl, rfl⟩, fun hlt _ => absurd hA (by omega),
      fun hlt _ => absurd hA (by omega)⟩
  · split at h
    · rename_i hA hB
      obtain ⟨rfl, -, -⟩ := save_ok_inv h
      exact ⟨rfl, fun hge => absurd hA (by omega), fun _ _ => ⟨rfl, rfl, rfl⟩,
        fun _ hlt => absurd hB (by omega)⟩
    · rename_i hA hB
      obtain ⟨rfl, -, -⟩ := save_ok_inv h
      exact ⟨rfl, fun hge => absurd hA (by omega), fun _ hge => absurd hB (by omega),
        fun _ _ => ⟨rfl, rfl, rfl⟩⟩

/-- Witness for C1: on the concrete best-of-3 match `mOngoing` with game
winners [10, 20], adding a third game won by 10 yields status completed and
winner 10; and on a best-of-5 match with winners [10, 10] the status is left
ongoing. -/
theorem addGame_bestOf_resolution_witness :
    mOngoing.addGame (gameW 3 (some 10)) 500 = Except.ok mOngoingDone ∧
    mOngoingDone.status = MatchStatus.completed ∧
    mOngoingDone.winnerId = some 10 := by
  have h := addGame_bestOf_resolution mOngoing (gameW 3 (some 10)) 500
    mOngoingDone (by rfl)
  exact ⟨by rfl, (h.2.1 (by decide)).2.1, (h.2.1 (by decide)).1⟩

/-- The persisted result of `setResult("", 3, 1)` on `mOngoing` at time 500. -/
def mResultDone : Match :=
  { mOngoing with
    scoreTeamA := 3
    scoreTeamB := 1
    winnerId := some 10
    status := .completed
    endTime := some 500 }

/-- Claim C2: `setResult(result, scoreA, scoreB)` stores the result text and
both aggregate scores, sets the winner to the side with the strictly greater
score and does not touch the winner on equal scores (so it stays unset if it
was unset), sets status to completed, and sets the end timestamp, which in
the persisted document is strictly after the start timestamp whenever a
start timestamp existed. -/
theorem setResult_spec (m : Match) (r : String) (a b : Int) (now : Int)
    (m2 : Match) (h : m.setResult r a b now = Except.ok m2) :
    m2.result = r ∧ m2.scoreTeamA = a ∧ m2.scoreTeamB = b ∧
    (a > b → m2.winnerId = some m.teamAId) ∧
    (b > a → m2.winnerId = some m.teamBId) ∧
    (a = b → m2.winnerId = m.winnerId) ∧
    m2.status = MatchStatus.completed ∧
    m2.endTime = some now ∧
    (∀ s, m2.startTime = some s → s < now) := by
  unfold Match.setResult at h
  simp only [] at h
  by_cases hgt : a > b
  · simp only [if_pos hgt] at h
    obtain ⟨rfl, -, hp⟩ := save_ok_inv h
    have ht := ((preSaveError_none_iff _).mp hp).2
    exact ⟨rfl, rfl, rfl, fun _ => rfl, fun hba => absurd hgt (by omega),
      fun heq => absurd hgt (by omega), rfl, rfl, fun s hs => ht now s rfl hs⟩
  · by_cases hlt : b > a
    · simp only [if_neg hgt, if_pos hlt] at h
      obtain ⟨rfl, -, hp⟩ := save_ok_inv h
      have ht := ((preSaveError_none_iff _).mp hp).2
      exact ⟨rfl, rfl, rfl, fun hgt2 => absurd hgt2 hgt, fun _ => rfl,
        fun heq => absurd hlt (by omega), rfl, rfl, fun s hs => ht now s rfl hs⟩
    · simp only [if_neg hgt, if_neg hlt] at h
      obtain ⟨rfl, -, hp⟩ := save_ok_inv h
      have ht := ((preSaveError_none_iff _).mp hp).2
      exact ⟨rfl, rfl, rfl, fun hgt2 => absurd hgt2 hgt,
        fun hlt2 => absurd hlt2 hlt, fun _ => rfl, rfl, rfl,
        fun s hs => ht now s rfl hs⟩

/-- Witness for C2: `setResult("", 3, 1)` at time 500 on the concrete match
`mOngoing` (whose start timestamp is 100) persists winner 10, status
completed, end timestamp 500, and 100 < 500. -/
theorem setResult_spec_witness :
    mOngoing.setResult "" 3 1 500 = Except.ok mResultDone ∧
    mResultDone.winnerId = some 10 ∧
    mResultDone.status = MatchStatus.completed ∧
    mResultDone.endTime = some 500 ∧ (100 : Int) < 500 := by
  have h := setResult_spec mOngoing "" 3 1 500 mResultDone (by rfl)
  exact ⟨by rfl, h.2.2.2.1 (by decide), h.2.2.2.2.2.2.1,
    h.2.2.2.2.2.2.2.1, h.2.2.2.2.2.2.2.2 100 rfl⟩

/-- A concrete scheduled match between competitors 10 and 20. -/
def mSched : Match :=
  { mOngoing with
    status := .scheduled
    startTime := none
    games := [] }

/-- Claim C3: the start operation succeeds only when the current status is
scheduled, setting status to ongoing and stamping the start timestamp; on a
match whose status is not scheduled (in particular after a first successful
start) it fails with the invalid-state rejection and persists nothing. -/
theorem startMatch_spec (m : Match) (now : Int)
    (hv : schemaValid m = true) (hab : m.teamAId ≠ m.teamBId)
    (he : ∀ e, m.endTime = some e → now < e) :
    (m.status ≠ MatchStatus.scheduled →
      MatchController.startMatch m now =
        HttpResp.err 400 "Match cannot be started from current status") ∧
    (m.status = MatchStatus.scheduled →
      MatchController.startMatch m now =
        HttpResp.ok 200 { m with status := .ongoing, startTime := some now }) ∧
    (∀ c m2, MatchController.startMatch m now = HttpResp.ok c m2 →
      ∀ now2, MatchController.startMatch m2 now2 =
        HttpResp.err 400 "Match cannot be started from current status") := by
  have hok : m.start now =
      Except.ok { m with status := MatchStatus.ongoing, startTime := some now } := by
    unfold Match.start
    refine save_ok_self hv ((preSaveError_none_iff _).mpr ⟨hab, ?_⟩)
    intro e s he' hs'
    cases hs'
    exact he e he'
  refine ⟨?_, ?_, ?_⟩
  · intro hs
    simp [MatchController.startMatch, hs]
  · intro hs
    simp [MatchController.startMatch, hs, hok]
  · intro c m2 h now2
    unfold MatchController.startMatch at h
    split at h
    · cases h
    · rw [hok] at h
      cases h
      simp [MatchController.startMatch]

/-- Witness for C3: starting the concrete scheduled match `mSched` at time
100 succeeds and sets it ongoing with start timestamp 100; starting the
resulting match again fails with the invalid-state rejection. -/
theorem startMatch_spec_witness :
    MatchController.startMatch mSched 100 =
      HttpResp.ok 200 { mSched with status := .ongoing, startTime := some 100 } ∧
    MatchController.startMatch
        { mSched with status := .ongoing, startTime := some 100 } 200 =
      HttpResp.err 400 "Match cannot be started from current status" := by
  have h := startMatch_spec mSched 100 (by decide) (by decide)
    (fun e he => Option.noConfusion he)
  exact ⟨h.2.1 rfl, h.2.2 200 _ (h.2.1 rfl) 200⟩

/-- Claim C5: for a match in any status, including completed,
`rescheduleNewDate(newDate)` updates the scheduled time to `newDate`,
unconditionally resets the status to scheduled, and changes nothing else. -/
theorem reschedule_spec (m : Match) (d : Int)
    (hv : schemaValid m = true) (hp : preSaveError m = none) :
    m.rescheduleNewDate d =
      Except.ok { m with scheduleAt := d, status := MatchStatus.scheduled } := by
  unfold Match.rescheduleNewDate
  exact save_ok_self hv hp

/-- Witness for C5: rescheduling the concrete completed match `mOngoingDone`
to time 777 succeeds and forces the status back to scheduled. -/
theorem reschedule_spec_witness :
    mOngoingDone.rescheduleNewDate 777 =
      Except.ok { mOngoingDone with scheduleAt := 777, status := MatchStatus.scheduled } :=
  reschedule_spec mOngoingDone 777 (by decide) (by decide)

/-- Replacing `notes` (and the status) keeps the schema validators passing as
long as the new notes are within the 1000-character bound. -/
theorem schemaValid_set_notes (m : Match) (r : String) (st : MatchStatus)
    (hv : schemaValid m = true) (hr : r.length ≤ 1000) :
    schemaValid { m with status := st, notes := r } = true := by
  simp only [schemaValid, Bool.and_eq_true, decide_eq_true_eq] at hv ⊢
  exact ⟨hv.1, hr⟩

/-- Claim C6: for a match in any status (including completed), `cancel(reason)`
sets status to cancelled and `postpone(reason)` sets status to postponed, in
both cases storing the reason in `notes`; at the schema method the omitted
reason defaults to the empty string, and at the controller an omitted request
reason defaults to the placeholder "No reason provided". -/
theorem cancel_postpone_spec (m : Match) (reason : String)
    (hv : schemaValid m = true) (hp : preSaveError m = none)
    (hr : reason.length ≤ 1000) :
    m.cancel reason =
      Except.ok { m with status := MatchStatus.cancelled, notes := reason } ∧
    m.postpone reason =
      Except.ok { m with status := MatchStatus.postponed, notes := reason } ∧
    m.cancel "" =
      Except.ok { m with status := MatchStatus.cancelled, notes := "" } ∧
    m.postpone "" =
      Except.ok { m with status := MatchStatus.postponed, notes := "" } ∧
    MatchController.cancelMatch m none =
      HttpResp.ok 200
        { m with status := MatchStatus.cancelled, notes := "No reason provided" } ∧
    MatchController.postponeMatch m none =
      HttpResp.ok 200
        { m with status := MatchStatus.postponed, notes := "No reason provided" } := by
  have hcan : ∀ (r : String), r.length ≤ 1000 →
      m.cancel r = Except.ok { m with status := MatchStatus.cancelled, notes := r } := by
    intro r hlen
    unfold Match.cancel
    exact save_ok_self (schemaValid_set_notes m r _ hv hlen) hp
  have hpos : ∀ (r : String), r.length ≤ 1000 →
      m.postpone r = Except.ok { m with status := MatchStatus.postponed, notes := r } := by
    intro r hlen
    unfold Match.postpone
    exact save_ok_self (schemaValid_set_notes m r _ hv hlen) hp
  refine ⟨hcan reason hr, hpos reason hr, hcan "" (by decide), hpos "" (by decide),
    ?_, ?_⟩
  · unfold MatchController.cancelMatch
    simp only [jsOrString]
    rw [hcan "No reason provided" (by decide)]
  · unfold MatchController.postponeMatch
    simp only [jsOrString]
    rw [hpos "No reason provided" (by decide)]

/-- Witness for C6: cancelling the concrete completed match `mOngoingDone`
with reason "rain" succeeds, and so do the controller calls with an omitted
reason. -/
theorem cancel_postpone_spec_witness :
    mOngoingDone.cancel "rain" =
      Except.ok { mOngoingDone with status := MatchStatus.cancelled, notes := "rain" } ∧
    MatchController.postponeMatch mOngoingDone none =
      HttpResp.ok 200
        { mOngoingDone with status := MatchStatus.postponed, notes := "No reason provided" } := by
  have h := cancel_postpone_spec mOngoingDone "rain" (by decide) (by decide) (by decide)
  exact ⟨h.1, h.2.2.2.2.2⟩

/-- Any document returned by a successful `save` has its end timestamp
strictly after its start timestamp whenever both are set. -/
theorem save_ok_times {m m2 : Match} (h : save m = Except.ok m2) :
    ∀ e s, m2.endTime = some e → m2.startTime = some s → s < e := by
  obtain ⟨rfl, -, hp⟩ := save_ok_inv h
  exact ((preSaveError_none_iff _).mp hp).2

/-- A concrete match whose end timestamp (50) is not after its start
timestamp (100). -/
def mBadTimes : Match :=
  { mOngoing with endTime := some 50 }

/-- Claim C8: persisting a match with end time less than or equal to start
time fails, and consequently every persisted result of every operation has
its end timestamp strictly after its start timestamp when both are set. -/
theorem end_after_start_invariant :
    (∀ (m : Match) (e s : Int), m.endTime = some e → m.startTime = some s →
      e ≤ s → ∃ msg, save m = Except.error msg) ∧
    (∀ (m m2 : Match), save m = Except.ok m2 →
      ∀ e s, m2.endTime = some e → m2.startTime = some s → s < e) ∧
    (∀ (m : Match) (r : String) (a b now : Int) (m2 : Match),
      m.setResult r a b now = Except.ok m2 →
      ∀ e s, m2.endTime = some e → m2.startTime = some s → s < e) ∧
    (∀ (m : Match) (d : Int) (m2 : Match), m.rescheduleNewDate d = Except.ok m2 →
      ∀ e s, m2.endTime = some e → m2.startTime = some s → s < e) ∧
    (∀ (m : Match) (now : Int) (m2 : Match), m.start now = Except.ok m2 →
      ∀ e s, m2.endTime = some e → m2.startTime = some s → s < e) ∧
    (∀ (m : Match) (r : String) (m2 : Match), m.cancel r = Except.ok m2 →
      ∀ e s, m2.endTime = some e → m2.startTime = some s → s < e) ∧
    (∀ (m : Match) (r : String) (m2 : Match), m.postpone r = Except.ok m2 →
      ∀ e s, m2.endTime = some e → m2.startTime = some s → s < e) ∧
    (∀ (m : Match) (g : Game) (now : Int) (m2 : Match),
      m.addGame g now = Except.ok m2 →
      ∀ e s, m2.endTime = some e → m2.startTime = some s → s < e) := by
  refine ⟨?_, ?_, ?_, ?_, ?_, ?_, ?_, ?_⟩
  · intro m e s he hs hle
    unfold save
    by_cases hv : schemaValid m = true
    · simp only [hv, if_true]
      cases hpe : preSaveError m with
      | some msg => exact ⟨_, rfl⟩
      | none =>
        exact absurd (((preSaveError_none_iff m).mp hpe).2 e s he hs) (by omega)
    · simp only [hv, if_false]
      exact ⟨_, rfl⟩
  · intro m m2 h
    exact save_ok_times h
  · intro m r a b now m2 h
    unfold Match.setResult at h
    simp only [] at h
    exact save_ok_times h
  · intro m d m2 h
    unfold Match.rescheduleNewDate at h
    exact save_ok_times h
  · intro m now m2 h
    unfold Match.start at h
    exact save_ok_times h
  · intro m r m2 h
    unfold Match.cancel at h
    exact save_ok_times h
  · intro m r m2 h
    unfold Match.postpone at h
    exact save_ok_times h
  · intro m g now m2 h
    unfold Match.addGame at h
    simp only [] at h
    split at h
    · exact save_ok_times h
    · split at h
      · exact save_ok_times h
      · exact save_ok_times h

/-- Witness for C8: persisting the concrete match `mBadTimes`, whose end
timestamp 50 is not after its start timestamp 100, fails. -/
theorem end_after_start_invariant_witness :
    ∃ msg, save mBadTimes = Except.error msg :=
  end_after_start_invariant.1 mBadTimes 50 100 rfl rfl (by omega)

/-- Claim C9: a recorded game with no winner reference counts toward neither
side's win total, and appending a game to a sequence consisting only of
winnerless games leaves the status, winner and end timestamp unchanged, for
any length of the sequence. -/
theorem addGame_winnerless_never_completes (m : Match) (g : Game) (now : Int)
    (hv : schemaValid m = true) (hp : preSaveError m = none)
    (hw : ∀ x ∈ m.games ++ [g], x.winner = none) :
    winsFor (m.games ++ [g]) m.teamAId = 0 ∧
    winsFor (m.games ++ [g]) m.teamBId = 0 ∧
    m.addGame g now = Except.ok { m with games := m.games ++ [g] } ∧
    ({ m with games := m.games ++ [g] } : Match).status = m.status ∧
    ({ m with games := m.games ++ [g] } : Match).winnerId = m.winnerId := by
  have hb : 1 ≤ m.bestOf := by
    have := hv
    simp only [schemaValid, Bool.and_eq_true, decide_eq_true_eq] at this
    exact this.1.2
  have hA0 : winsFor (m.games ++ [g]) m.teamAId = 0 := by
    unfold winsFor
    rw [List.countP_eq_zero]
    intro x hx
    simp [hw x hx]
  have hB0 : winsFor (m.games ++ [g]) m.teamBId = 0 := by
    unfold winsFor
    rw [List.countP_eq_zero]
    intro x hx
    simp [hw x hx]
  have hA0' := hA0
  have hB0' := hB0
  unfold winsFor at hA0' hB0'
  rw [List.countP_eq_length_filter] at hA0' hB0'
  refine ⟨hA0, hB0, ?_, rfl, rfl⟩
  unfold Match.addGame
  simp only []
  rw [if_neg (by omega), if_neg (by omega)]
  exact save_ok_self hv hp

/-- Witness for C9: appending a winnerless game to the concrete scheduled
best-of-3 match `mSched` counts no win for either side and leaves the match
unresolved. -/
theorem addGame_winnerless_never_completes_witness :
    winsFor (mSched.games ++ [gameW 1 none]) mSched.teamAId = 0 ∧
    mSched.addGame (gameW 1 none) 400 =
      Except.ok { mSched with games := mSched.games ++ [gameW 1 none] } := by
  have h := addGame_winnerless_never_completes mSched (gameW 1 none) 400
    (by decide) (by decide) (by decide)
  exact ⟨h.1, h.2.2.1⟩

/-- A concrete cancelled best-of-1 match between competitors 10 and 20. -/
def mCancelled : Match :=
  { mSched with status := .cancelled, bestOf := 1 }

/-- The persisted result of adding a game won by 10 to the cancelled match
`mCancelled` at time 600. -/
def mCancelledDone : Match :=
  { mCancelled with
    games := [gameW 1 (some 10)]
    winnerId := some 10
    status := .completed
    endTime := some 600 }

/-- Claim C10: `addGame` has no precondition on the match status: for a match
in any status it appends the game and persists (failing on no status ground),
and in particular a game appended to a cancelled match can set its status to
completed with a winner. -/
theorem addGame_no_status_precondition (m : Match) (g : Game) (now : Int)
    (hv : schemaValid m = true) (hab : m.teamAId ≠ m.teamBId)
    (ht : ∀ e s, m.endTime = some e → m.startTime = some s → s < e)
    (hn : ∀ s, m.startTime = some s → s < now) :
    (∃ m2, m.addGame g now = Except.ok m2 ∧ m2.games = m.games ++ [g]) ∧
    mCancelled.addGame (gameW 1 (some 10)) 600 = Except.ok mCancelledDone ∧
    mCancelledDone.status = MatchStatus.completed ∧
    mCancelledDone.winnerId = some 10 := by
  refine ⟨?_, by rfl, rfl, rfl⟩
  have hcomp : ∀ (w : Option Nat),
      preSaveError
        { m with
          games := m.games ++ [g]
          winnerId := w
          status := MatchStatus.completed
          endTime := some now } = none := by
    intro w
    refine (preSaveError_none_iff _).mpr ⟨hab, ?_⟩
    intro e s he hs
    cases he
    exact hn s hs
  unfold Match.addGame
  simp only []
  rcases Nat.lt_or_ge
      ((List.filter (fun x => x.winner == some m.teamAId) (m.games ++ [g])).length)
      ((m.bestOf + 1) / 2) with hA | hA
  · rw [if_neg (by omega)]
    rcases Nat.lt_or_ge
        ((List.filter (fun x => x.winner == some m.teamBId) (m.games ++ [g])).length)
        ((m.bestOf + 1) / 2) with hB | hB
    · rw [if_neg (by omega)]
      exact ⟨_, save_ok_self hv ((preSaveError_none_iff _).mpr ⟨hab, ht⟩), rfl⟩
    · rw [if_pos hB]
      exact ⟨_, save_ok_self hv (hcomp (some m.teamBId)), rfl⟩
  · rw [if_pos hA]
    exact ⟨_, save_ok_self hv (hcomp (some m.teamAId)), rfl⟩

/-- Witness for C10: adding a game won by 10 to the concrete cancelled match
`mCancelled` succeeds, appends the game, and completes the match. -/
theorem addGame_no_status_precondition_witness :
    (∃ m2, mCancelled.addGame (gameW 1 (some 10)) 600 = Except.ok m2 ∧
      m2.games = mCancelled.games ++ [gameW 1 (some 10)]) ∧
    mCancelledDone.status = MatchStatus.completed := by
  have h := addGame_no_status_precondition mCancelled (gameW 1 (some 10)) 600
    (by decide) (by decide) (fun e s he hs => Option.noConfusion he)
    (fun s hs => Option.noConfusion hs)
  exact ⟨h.1, h.2.2.1⟩

/-- A concrete external state: tournament 1 with competitors 10 and 20
registered in it. -/
def dbW : Db :=
  { tournaments := [1], registrations := [(10, 1), (20, 1)] }

/-- A concrete external state with no tournaments and no registrations. -/
def dbEmpty : Db :=
  { tournaments := [], registrations := [] }

/-- Any document returned by a successful `save` has distinct team ids. -/
theorem save_ok_distinct {m m2 : Match} (h : save m = Except.ok m2) :
    m2.teamAId ≠ m2.teamBId := by
  obtain ⟨rfl, -, hp⟩ := save_ok_inv h
  exact ((preSaveError_none_iff _).mp hp).1

/-- Counterexample to C4 as stated: a create request with equal competitor
ids is rejected, but the duplicate-team check is a plain `Error` raised by
the `pre('save')` hook, so the controller answers through its generic 500
server-error branch, not through the 400 "Validation failed"
(ValidationError) branch. -/
theorem createMatch_equal_ids_counterexample :
    MatchController.createMatch dbW 1 10 10 0 1 Bracket.winners 3 none =
      HttpResp.err 500 "Server error while creating match" ∧
    MatchController.createMatch dbW 1 10 10 0 1 Bracket.winners 3 none ≠
      HttpResp.err 400 "Validation failed" :=
  ⟨by rfl, by decide⟩

/-- Claim C4 (amended): every match returned by a successful `createMatch`
has distinct teamA and teamB references; a create request with equal
competitor ids fails (though surfaced as a generic 500 server error rather
than a ValidationError response); and every persisted result of every
instance method keeps the team references distinct. -/
theorem teams_distinct_invariant :
    (∀ (db : Db) (t a b : Nat) (sAt rd : Int) (br : Bracket) (bo : Nat)
      (ref : Option Nat) (c : Nat) (mm : Match),
      MatchController.createMatch db t a b sAt rd br bo ref = HttpResp.ok c mm →
      mm.teamAId ≠ mm.teamBId) ∧
    MatchController.createMatch dbW 1 10 10 9 1 Bracket.winners 3 none =
      HttpResp.err 500 "Server error while creating match" ∧
    (∀ (m : Match) (r : String) (a b now : Int) (m2 : Match),
      m.setResult r a b now = Except.ok m2 → m2.teamAId ≠ m2.teamBId) ∧
    (∀ (m : Match) (d : Int) (m2 : Match),
      m.rescheduleNewDate d = Except.ok m2 → m2.teamAId ≠ m2.teamBId) ∧
    (∀ (m : Match) (now : Int) (m2 : Match),
      m.start now = Except.ok m2 → m2.teamAId ≠ m2.teamBId) ∧
    (∀ (m : Match) (r : String) (m2 : Match),
      m.cancel r = Except.ok m2 → m2.teamAId ≠ m2.teamBId) ∧
    (∀ (m : Match) (r : String) (m2 : Match),
      m.postpone r = Except.ok m2 → m2.teamAId ≠ m2.teamBId) ∧
    (∀ (m : Match) (g : Game) (now : Int) (m2 : Match),
      m.addGame g now = Except.ok m2 → m2.teamAId ≠ m2.teamBId) := by
  refine ⟨?_, by rfl, ?_, ?_, ?_, ?_, ?_, ?_⟩
  · intro db t a b sAt rd br bo ref c mm h
    unfold MatchController.createMatch at h
    split at h
    · cases h
    · split at h
      · cases h
      · split at h
        · rename_i msaved hsave
          cases h
          exact save_ok_distinct hsave
        · cases h
        · cases h
  · intro m r a b now m2 h
    unfold Match.setResult at h
    simp only [] at h
    exact save_ok_distinct h
  · intro m d m2 h
    unfold Match.rescheduleNewDate at h
    exact save_ok_distinct h
  · intro m now m2 h
    unfold Match.start at h
    exact save_ok_distinct h
  · intro m r m2 h
    unfold Match.cancel at h
    exact save_ok_distinct h
  · intro m r m2 h
    unfold Match.postpone at h
    exact save_ok_distinct h
  · intro m g now m2 h
    unfold Match.addGame at h
    simp only [] at h
    split at h
    · exact save_ok_distinct h
    · split at h
      · exact save_ok_distinct h
      · exact save_ok_distinct h

/-- Witness for C4: the match persisted by a concrete successful create
request has distinct team references. -/
theorem teams_distinct_invariant_witness :
    (mkMatch 1 10 20 0 1 Bracket.winners 3 none).teamAId ≠
      (mkMatch 1 10 20 0 1 Bracket.winners 3 none).teamBId :=
  teams_distinct_invariant.1 dbW 1 10 20 0 1 Bracket.winners 3 none 201
    (mkMatch 1 10 20 0 1 Bracket.winners 3 none) (by rfl)

/-- Counterexample to C7 as stated: when the tournament does not exist the
create request fails through the 404 not-found branch, not through a
ValidationError (400 "Validation failed") response. -/
theorem createMatch_missing_tournament_counterexample :
    MatchController.createMatch dbEmpty 1 10 20 0 1 Bracket.winners 3 none =
      HttpResp.err 404 "Tournament not found" ∧
    MatchController.createMatch dbEmpty 1 10 20 0 1 Bracket.winners 3 none ≠
      HttpResp.err 400 "Validation failed" :=
  ⟨by rfl, by decide⟩

/-- Claim C7 (amended): the schedule operation fails with the 404 not-found
response when the tournament lookup returns nothing; fails with the 400
response when either competitor lookup in the tournament returns nothing
(which covers non-registered competitors); fails with the generic 500 server
error (not a ValidationError response) when teamA equals teamB; and only
when all lookups succeed and the saved document passes validation is a new
Match created and returned with 201. -/
theorem createMatch_error_taxonomy (db : Db) (t a b : Nat) (sAt rd : Int)
    (br : Bracket) (bo : Nat) (ref : Option Nat) :
    (db.tournaments.contains t = false →
      MatchController.createMatch db t a b sAt rd br bo ref =
        HttpResp.err 404 "Tournament not found") ∧
    (db.tournaments.contains t = true →
      ¬(db.registered a t = true ∧ db.registered b t = true) →
      MatchController.createMatch db t a b sAt rd br bo ref =
        HttpResp.err 400 "One or both competitors not found in this tournament") ∧
    (db.tournaments.contains t = true → db.registered a t = true →
      db.registered b t = true → a = b → 1 ≤ rd → 1 ≤ bo →
      MatchController.createMatch db t a b sAt rd br bo ref =
        HttpResp.err 500 "Server error while creating match") ∧
    (db.tournaments.contains t = true → db.registered a t = true →
      db.registered b t = true → a ≠ b → 1 ≤ rd → 1 ≤ bo →
      MatchController.createMatch db t a b sAt rd br bo ref =
        HttpResp.ok 201 (mkMatch t a b sAt rd br bo ref)) := by
  refine ⟨?_, ?_, ?_, ?_⟩
  · intro hc
    have hc' : t ∉ db.tournaments := by simpa using hc
    simp [MatchController.createMatch, hc']
  · intro hc hreg
    have hc' : t ∈ db.tournaments := by simpa using hc
    simp [MatchController.createMatch, hc', hreg]
  · intro hc hra hrb heq hrd hbo
    subst heq
    have hc' : t ∈ db.tournaments := by simpa using hc
    have hv : schemaValid (mkMatch t a a sAt rd br bo ref) = true := by
      simp only [schemaValid, mkMatch, Bool.and_eq_true, decide_eq_true_eq]
      exact ⟨⟨⟨⟨⟨by decide, by norm_num⟩, by norm_num⟩, hrd⟩, hbo⟩, by decide⟩
    have hpe : preSaveError (mkMatch t a a sAt rd br bo ref) =
        some "Team A and Team B cannot be the same" := by
      simp [preSaveError, mkMatch]
    have hsave : save (mkMatch t a a sAt rd br bo ref) =
        Except.error (SaveError.hookError "Team A and Team B cannot be the same") := by
      unfold save
      rw [if_pos hv, hpe]
    simp [MatchController.createMatch, hc', hra, hrb, hsave]
  · intro hc hra hrb hne hrd hbo
    have hc' : t ∈ db.tournaments := by simpa using hc
    have hv : schemaValid (mkMatch t a b sAt rd br bo ref) = true := by
      simp only [schemaValid, mkMatch, Bool.and_eq_true, decide_eq_true_eq]
      exact ⟨⟨⟨⟨⟨by decide, by norm_num⟩, by norm_num⟩, hrd⟩, hbo⟩, by decide⟩
    have hsave : save (mkMatch t a b sAt rd br bo ref) =
        Except.ok (mkMatch t a b sAt rd br bo ref) := by
      refine save_ok_self hv ((preSaveError_none_iff _).mpr ⟨hne, ?_⟩)
      intro e s he hs
      exact Option.noConfusion he
    simp [MatchController.createMatch, hc', hra, hrb, hsave]

/-- Witness for C7: with tournament 1 and registered competitors 10 and 20,
a concrete create request succeeds and returns the newly built match with
201. -/
theorem createMatch_error_taxonomy_witness :
    MatchController.createMatch dbW 1 10 20 0 1 Bracket.winners 3 none =
      HttpResp.ok 201 (mkMatch 1 10 20 0 1 Bracket.winners 3 none) :=
  (createMatch_error_taxonomy dbW 1 10 20 0 1 Bracket.winners 3 none).2.2.2
    (by decide) (by decide) (by decide) (by decide) (by decide) (by decide)

end Esport
